import Mathlib

/-!
Shallow embedding of src/launcher/job_launcher.c: the session lifecycle
controller of the job launcher, its framed control-message protocol, the
host registry ingestion, the acknowledgment tracking that decides session
completion, and the interrupt-driven teardown path.

The comlink transport layer (common.h, comlink_*) is an external
collaborator of this repository; where its behavior decides a property it
is modelled from the specification, and each such definition says so in
its documentation.
-/

namespace JobLauncher

/-- MAX_CMD_ARGS from job_launcher.c. -/
def MAX_CMD_ARGS : Nat := 6

/-- MAX_INSTANCES from job_launcher.c. -/
def MAX_INSTANCES : Int := 100

/-- Modelled from the spec: MAX_HOSTNAME_LEN is defined in common.h, which
is not part of this repository; the spec only says hostnames have a fixed
storage bound. Any positive bound exhibits the same ingestion behavior;
64 is used here. -/
def MAX_HOSTNAME_LEN : Nat := 64

/-- Size in bytes of a C int on the target platform: the value of
sizeof(session->instances) in launcher_session_start. -/
def sizeof_int : Nat := 4

/-- Size in bytes of a char pointer on the LP64 target platform: the value
of sizeof(msg) computed in launcher_send_ctrlmsg, where msg is a char
pointer parameter. -/
def sizeof_charp : Nat := 8

/-- The message-type enumerants used by job_launcher.c (declared in a
header outside src; the names are taken from their uses in the file). -/
inductive MsgType
  | CTRL_MESSAGE
  | PROC_INSTANCES
  | EXEC_FILENAME
deriving DecidableEq

/-- comlink_header_t as used by fill_header: a message type and a payload
length field. -/
structure ComlinkHeader where
  type : MsgType
  len : Nat
deriving DecidableEq

/-- The payload pointer handed to comlink_sendto_server: either the address
of the int session->instances, or a character string (exe name or command
keyword). -/
inductive Payload
  | intBytes (value : Int)
  | str (s : String)
deriving DecidableEq

/-- Length of the actual serialized payload: the int encoding width for an
instance count, the string length for a string payload. -/
def serializedLen : Payload → Nat
  | Payload.intBytes _ => sizeof_int
  | Payload.str s => s.length

/-- One call to comlink_sendto_server as issued by job_launcher.c: the
first argument (the connection handle slot), the header, and the payload
the caller intends to transmit. -/
structure SentMsg where
  fd : Int
  header : ComlinkHeader
  payload : Payload
deriving DecidableEq

/-- fill_header from job_launcher.c: zeroes the header then stores the
given type and length. -/
def fill_header (type : MsgType) (len : Nat) : ComlinkHeader :=
  { type := type, len := len }

/-- launcher_send_ctrlmsg from job_launcher.c. The function computes
len = sizeof(msg) where msg is a char pointer, so the header carries the
pointer size, not the length of the command string. -/
def launcher_send_ctrlmsg (fd : Int) (msg : String) : SentMsg :=
  { fd := fd,
    header := fill_header MsgType.CTRL_MESSAGE sizeof_charp,
    payload := Payload.str msg }

/-- host_info_t entry from the host registry (field hostname is the one
job_launcher.c reads and writes). -/
structure HostInfo where
  hostname : String
deriving DecidableEq

/-- launcher_session_t as used by job_launcher.c: requested instance count,
hostfile path, executable path, host count, the host_info array (none
models a NULL or freed entry), the skt_conns array of per-host connection
handles, the active-connection and acknowledgment counters, and the
validity flag. -/
structure Session where
  instances : Int
  host_file : String
  exe_name : String
  host_count : Nat
  host_info : List (Option HostInfo)
  skt_conns : List Int
  nr_active : Nat
  nr_ackd : Nat
  valid : Bool
deriving DecidableEq

/-- The session together with the state of the external comlink transport.
transportUp is true until comlink_client_shutdown is called; modelled from
the spec, which says shutdown releases all transport resources, after
which the event loop delivers no further callbacks. -/
structure SysState where
  session : Session
  transportUp : Bool
deriving DecidableEq

/-- launcher_session_cleanup from job_launcher.c: returns immediately when
the session is not valid; otherwise clears the valid flag, frees (and sets
to NULL) every host_info entry at an index below host_count, and calls
comlink_client_shutdown. -/
def launcher_session_cleanup (st : SysState) : SysState :=
  if st.session.valid = false then st
  else
    { session :=
        { st.session with
          valid := false,
          host_info := st.session.host_info.mapIdx
            (fun i h => if i < st.session.host_count then none else h) },
      transportUp := false }

/-- launcher_rxmsg_callback from job_launcher.c: prints the status text,
increments nr_ackd, and when nr_active is at most the new nr_ackd calls
launcher_session_cleanup. There is no validity guard in the callback. -/
def launcher_rxmsg_callback (st : SysState) : SysState :=
  if st.session.nr_active ≤ st.session.nr_ackd + 1 then
    launcher_session_cleanup
      { st with session := { st.session with nr_ackd := st.session.nr_ackd + 1 } }
  else
    { st with session := { st.session with nr_ackd := st.session.nr_ackd + 1 } }

/-- launcher_signal_handler from job_launcher.c: sends a stop control
message to every host index (the sends do not change the session or the
shutdown state of the transport) and then calls launcher_session_cleanup. -/
def launcher_signal_handler (st : SysState) : SysState :=
  launcher_session_cleanup st

/-- n successive deliveries of inbound status reports to
launcher_rxmsg_callback. -/
def runReports (st : SysState) : Nat → SysState
  | 0 => st
  | n + 1 => launcher_rxmsg_callback (runReports st n)

/-- The digit-consuming loop of the C library atoi: consumes decimal
digits, stopping at the first non-digit. -/
def atoi_digits : List Char → Int → Int
  | [], acc => acc
  | c :: cs, acc =>
      if c.isDigit then atoi_digits cs (acc * 10 + Int.ofNat (c.toNat - 48))
      else acc

/-- The C library atoi as called by parse_cmdline: skips leading
whitespace, reads an optional sign, then decimal digits. -/
def atoi (s : String) : Int :=
  match s.data.dropWhile (fun c => c == ' ' || c == '\t' || c == '\n' || c == '\r') with
  | '-' :: cs => - atoi_digits cs 0
  | '+' :: cs => atoi_digits cs 0
  | cs => atoi_digits cs 0

/-- strncmp(a, b, n) == 0 for NUL-free strings: the first n characters
agree. -/
def strncmp_eq (a b : String) (n : Nat) : Bool :=
  a.data.take n = b.data.take n

/-- parse_cmdline from job_launcher.c. Note the validation condition is
the one written in the source: instances below zero AND above
MAX_INSTANCES, a conjunction. -/
def parse_cmdline (argv : List String) (s : Session) : Session × Int :=
  if argv.length < MAX_CMD_ARGS then (s, -1)
  else
    let s1 := if strncmp_eq (argv.getD 1 "") "-np" 3
              then { s with instances := atoi (argv.getD 2 "") } else s
    let s2 := if strncmp_eq (argv.getD 3 "") "-hostfile" 9
              then { s1 with host_file := argv.getD 4 "" } else s1
    let s3 := { s2 with exe_name := argv.getD 5 "" }
    if (s3.instances < 0 ∧ s3.instances > MAX_INSTANCES)
        ∨ strncmp_eq s3.host_file "" 1
        ∨ strncmp_eq s3.exe_name "" 1 then (s3, -1)
    else (s3, 0)

/-- The first chunk fgets(buffer, L, fp) returns for a hostfile line: when
the line fits in L - 1 characters it is returned whole, otherwise fgets
silently stops after L - 1 characters and the rest of the line is left for
the next call. -/
def fgets_first_chunk (L : Nat) (line : String) : String :=
  if line.data.length ≤ L - 1 then line
  else { data := line.data.take (L - 1) }

/-- One iteration of the parse_hostfile loop in job_launcher.c: when
alloc_host_entry succeeds (it fails only when malloc fails), the fgets
chunk is copied with strcpy into the new entry at index host_count and
host_count is incremented. No hostname-length check and no capacity check
is performed anywhere in the loop. -/
def hostfile_add (allocOk : Bool) (s : Session) (chunk : String) : Session :=
  if allocOk then
    { s with
      host_info := s.host_info ++ [some { hostname := chunk }],
      host_count := s.host_count + 1 }
  else s

/-- The whole parse_hostfile loop over the successive chunks returned by
fgets, with an allocation-success oracle per iteration. -/
def parse_hostfile_adds (allocOk : Nat → Bool) (chunks : List String)
    (s : Session) : Session :=
  chunks.foldl (fun acc ch => hostfile_add (allocOk acc.host_count) acc ch) s

/-- The body of the setup loop of launcher_session_setup for host index i:
when hostname_to_netaddr fails the host is skipped; otherwise the comlink
client setup result fd is stored in skt_conns at index i, and nr_active is
incremented exactly when fd is not -1. resolve and connect are oracles for
the two external calls. -/
def setup_host_step (resolve : Nat → Bool) (connect : Nat → Int)
    (s : Session) (i : Nat) : Session :=
  if resolve i = false then s
  else if connect i = -1 then { s with skt_conns := s.skt_conns.set i (connect i) }
  else { s with skt_conns := s.skt_conns.set i (connect i),
                nr_active := s.nr_active + 1 }

/-- launcher_session_setup from job_launcher.c: resets nr_ackd and
nr_active to zero, sets the valid flag, runs the connection loop over all
hosts, and returns 0 unconditionally. -/
def launcher_session_setup (resolve : Nat → Bool) (connect : Nat → Int)
    (s : Session) : Session × Int :=
  ((List.range s.host_count).foldl (setup_host_step resolve connect)
      { s with nr_ackd := 0, nr_active := 0, valid := true }, 0)

/-- The system state right after launcher_session_setup: the transport has
not been shut down. -/
def postSetup (resolve : Nat → Bool) (connect : Nat → Int) (s : Session) : SysState :=
  { session := (launcher_session_setup resolve connect s).1, transportUp := true }

/-- The three comlink_sendto_server calls issued for host index i by the
dispatch loop of launcher_session_start: the instance count, the
executable name, then the start control message. The first argument passed
by the source for all three is the loop index i itself, not
session->skt_conns[i]. -/
def host_dispatch_msgs (s : Session) (i : Nat) : List SentMsg :=
  [ { fd := (i : Int),
      header := fill_header MsgType.PROC_INSTANCES sizeof_int,
      payload := Payload.intBytes s.instances },
    { fd := (i : Int),
      header := fill_header MsgType.EXEC_FILENAME s.exe_name.length,
      payload := Payload.str s.exe_name },
    launcher_send_ctrlmsg (i : Int) "start" ]

/-- The full sequence of sends issued by the dispatch loop of
launcher_session_start: three messages per host index, for every host
index below host_count, with no check of the connection validity. -/
def launcher_session_start_trace (s : Session) : List SentMsg :=
  ((List.range s.host_count).map (host_dispatch_msgs s)).flatten

/-- The session-state effect of one dispatch-loop iteration of
launcher_session_start: when the start control send fails (returns -1) the
source only prints a log line saying the host will be ignored; neither
branch writes to the session. sendRes is the oracle for the result of the
start control send for host i. -/
def start_host_update (sendRes : Nat → Int) (s : Session) (i : Nat) : Session :=
  if sendRes i = -1 then s else s

/-- launcher_session_start from job_launcher.c: runs the dispatch loop
(whose only session access is reads plus the logging branch above) and
then blocks in comlink_client_start. Returns the final session state and
the trace of sends issued. -/
def launcher_session_start (sendRes : Nat → Int) (s : Session) :
    Session × List SentMsg :=
  ((List.range s.host_count).foldl (start_host_update sendRes) s,
   launcher_session_start_trace s)

/-- One atomic step of the wait phase: a status-report delivery (possible
only while the transport has not been shut down; modelled from the spec,
since the event loop of the external transport delivers the callback), a
dispatch call, a cleanup call, or an operator interrupt. -/
inductive Step : SysState → SysState → Prop
  | report {st : SysState} (h : st.transportUp = true) :
      Step st (launcher_rxmsg_callback st)
  | dispatch {st : SysState} (sendRes : Nat → Int) :
      Step st { session := (launcher_session_start sendRes st.session).1,
                transportUp := st.transportUp }
  | cleanup {st : SysState} : Step st (launcher_session_cleanup st)
  | interrupt {st : SysState} : Step st (launcher_signal_handler st)

/-- The states reachable from some post-setup state by wait-phase steps. -/
def Reachable (resolve : Nat → Bool) (connect : Nat → Int) (st : SysState) : Prop :=
  ∃ s0 : Session, Relation.ReflTransGen Step (postSetup resolve connect s0) st

/-- The inductive invariant of the wait phase: while valid the
acknowledgment count is bounded by the active-connection count, and a
session that is no longer valid has its transport shut down. -/
def SessionInv (st : SysState) : Prop :=
  (st.session.valid = true → st.session.nr_ackd ≤ st.session.nr_active) ∧
  (st.session.valid = false → st.transportUp = false)

/-! Concrete inputs used by the witness and counterexample theorems. -/

/-- A fresh two-host session before setup (the zero-initialized global
plus a parsed configuration). -/
def sPre : Session :=
  { instances := 4, host_file := "hosts.txt", exe_name := "/bin/app",
    host_count := 2,
    host_info := [some { hostname := "alpha" }, some { hostname := "beta" }],
    skt_conns := [-1, -1],
    nr_active := 0, nr_ackd := 0, valid := false }

/-- Resolution oracle: every hostname resolves. -/
def rAll : Nat → Bool := fun _ => true

/-- Connection oracle: every connection succeeds, with handle i + 3. -/
def cAll : Nat → Int := fun i => Int.ofNat i + 3

/-- Connection oracle: the connection to host 0 fails, the rest succeed
with handle 7. -/
def cFail0 : Nat → Int := fun i => if i = 0 then -1 else 7

/-- A valid two-host session in the wait phase: both connections active,
no acknowledgment received yet. -/
def stWait : SysState :=
  { session :=
      { instances := 4, host_file := "hosts.txt", exe_name := "/bin/app",
        host_count := 2,
        host_info := [some { hostname := "alpha" }, some { hostname := "beta" }],
        skt_conns := [3, 4],
        nr_active := 2, nr_ackd := 0, valid := true },
    transportUp := true }

/-- A dispatch-phase session in which host 1 has no valid connection
(its recorded handle is -1) while host 0 is connected with handle 5. -/
def sDispatch : Session :=
  { instances := 4, host_file := "hosts.txt", exe_name := "/bin/app",
    host_count := 2,
    host_info := [some { hostname := "alpha" }, some { hostname := "beta" }],
    skt_conns := [5, -1],
    nr_active := 1, nr_ackd := 0, valid := true }

/-- Send-result oracle: the start control send to host 0 fails. -/
def sendFail0 : Nat → Int := fun i => if i = 0 then -1 else 0

/-- A valid two-host wait-phase session with both hosts connected, as left
by a dispatch in which one start send failed: the source never decrements
nr_active, so it is still 2. -/
def sTwoActive : Session :=
  { instances := 4, host_file := "hosts.txt", exe_name := "/bin/app",
    host_count := 2,
    host_info := [some { hostname := "alpha" }, some { hostname := "beta" }],
    skt_conns := [3, 4],
    nr_active := 2, nr_ackd := 0, valid := true }

/-- The zero-initialized global session, as parse_cmdline first sees it. -/
def sZero : Session :=
  { instances := 0, host_file := "", exe_name := "",
    host_count := 0, host_info := [], skt_conns := [],
    nr_active := 0, nr_ackd := 0, valid := false }

/-- A command line requesting 1000 instances, far above MAX_INSTANCES. -/
def argvBig : List String :=
  ["launcher", "-np", "1000", "-hostfile", "hosts.txt", "/bin/app"]

/-- A command line requesting zero instances. -/
def argvZero : List String :=
  ["launcher", "-np", "0", "-hostfile", "hosts.txt", "/bin/app"]

/-- A hostname of 100 characters, above the storage bound. -/
def longHostname : String := { data := List.replicate 100 'a' }

/-- The successive fgets chunks produced for the long hostname with a
63-character buffer payload: a 63-character truncated head and a
37-character tail read by the next fgets call. -/
def longChunks : List String :=
  [{ data := List.replicate 63 'a' }, { data := List.replicate 37 'a' }]

/-- A registry already holding 100 hosts, the capacity bound named by the
spec. -/
def sFull : Session :=
  { instances := 0, host_file := "", exe_name := "",
    host_count := 100,
    host_info := List.replicate 100 (some { hostname := "h" }),
    skt_conns := [],
    nr_active := 0, nr_ackd := 0, valid := false }

/-! Helper lemmas shared by the claim theorems. -/

theorem cleanup_of_invalid {st : SysState} (h : st.session.valid = false) :
    launcher_session_cleanup st = st := by
  unfold launcher_session_cleanup
  rw [if_pos h]

theorem cleanup_valid_false (st : SysState) :
    (launcher_session_cleanup st).session.valid = false := by
  unfold launcher_session_cleanup
  by_cases h : st.session.valid = false
  · rw [if_pos h]; exact h
  · rw [if_neg h]

theorem cleanup_transport_false {st : SysState} (h : st.session.valid = true) :
    (launcher_session_cleanup st).transportUp = false := by
  unfold launcher_session_cleanup
  rw [if_neg (by simp [h])]

theorem cleanup_idem (st : SysState) :
    launcher_session_cleanup (launcher_session_cleanup st)
      = launcher_session_cleanup st :=
  cleanup_of_invalid (cleanup_valid_false st)

theorem rxmsg_valid_false {st : SysState} (h : st.session.valid = false) :
    (launcher_rxmsg_callback st).session.valid = false := by
  unfold launcher_rxmsg_callback
  by_cases hc : st.session.nr_active ≤ st.session.nr_ackd + 1
  · rw [if_pos hc]; exact cleanup_valid_false _
  · rw [if_neg hc]; exact h

theorem start_host_update_id (f : Nat → Int) (s : Session) (i : Nat) :
    start_host_update f s i = s := by
  unfold start_host_update
  split <;> rfl

theorem session_start_fst (f : Nat → Int) (s : Session) :
    (launcher_session_start f s).1 = s := by
  show (List.range s.host_count).foldl (start_host_update f) s = s
  generalize List.range s.host_count = l
  induction l generalizing s with
  | nil => rfl
  | cons i t ih => rw [List.foldl_cons, start_host_update_id]; exact ih s

theorem setup_host_step_valid_ackd (r : Nat → Bool) (c : Nat → Int)
    (s : Session) (i : Nat) :
    (setup_host_step r c s i).valid = s.valid ∧
    (setup_host_step r c s i).nr_ackd = s.nr_ackd := by
  unfold setup_host_step
  split
  · exact ⟨rfl, rfl⟩
  · split <;> exact ⟨rfl, rfl⟩

theorem setup_foldl_valid_ackd (r : Nat → Bool) (c : Nat → Int) (l : List Nat) :
    ∀ s : Session,
      (l.foldl (setup_host_step r c) s).valid = s.valid ∧
      (l.foldl (setup_host_step r c) s).nr_ackd = s.nr_ackd := by
  induction l with
  | nil => intro s; exact ⟨rfl, rfl⟩
  | cons i t ih =>
      intro s
      rw [List.foldl_cons]
      have h1 := setup_host_step_valid_ackd r c s i
      have h2 := ih (setup_host_step r c s i)
      exact ⟨h2.1.trans h1.1, h2.2.trans h1.2⟩

theorem setup_host_step_nr_active (r : Nat → Bool) (c : Nat → Int)
    (s : Session) (i : Nat) :
    (setup_host_step r c s i).nr_active
      = s.nr_active + (if r i = true ∧ c i ≠ -1 then 1 else 0) := by
  unfold setup_host_step
  by_cases h1 : r i = false
  · rw [if_pos h1, if_neg (by simp [h1])]
    rfl
  · rw [if_neg h1]
    have h1' : r i = true := by revert h1; cases r i <;> simp
    by_cases h2 : c i = -1
    · rw [if_pos h2, if_neg (by simp [h2])]
      rfl
    · rw [if_neg h2, if_pos ⟨h1', h2⟩]

theorem setup_foldl_nr_active (r : Nat → Bool) (c : Nat → Int) (l : List Nat) :
    ∀ s : Session,
      (l.foldl (setup_host_step r c) s).nr_active
        = s.nr_active + (l.filter (fun i => r i = true ∧ c i ≠ -1)).length := by
  induction l with
  | nil => intro s; simp
  | cons i t ih =>
      intro s
      rw [List.foldl_cons, ih, setup_host_step_nr_active, List.filter_cons]
      by_cases h : r i = true ∧ c i ≠ -1
      · simp only [h, if_pos, decide_eq_true_eq]
        simp [h]
        omega
      · simp [h]

theorem filter_block_ne (s : Session) {i n : Nat} (h : ¬ n = i) :
    (host_dispatch_msgs s n).filter (fun m => m.fd = (i : Int)) = [] := by
  have hne : ¬((n : Int) = (i : Int)) := by exact_mod_cast h
  simp [host_dispatch_msgs, launcher_send_ctrlmsg, fill_header, hne]

theorem filter_block_eq (s : Session) (i : Nat) :
    (host_dispatch_msgs s i).filter (fun m => m.fd = (i : Int))
      = host_dispatch_msgs s i := by
  simp [host_dispatch_msgs, launcher_send_ctrlmsg, fill_header]

theorem trace_prefix_filter (s : Session) : ∀ n i : Nat, n ≤ i →
    (((List.range n).map (host_dispatch_msgs s)).flatten).filter
        (fun m => m.fd = (i : Int)) = [] := by
  intro n
  induction n with
  | zero => intro i _; rfl
  | succ n ih =>
      intro i h
      rw [List.range_succ, List.map_append, List.flatten_append, List.filter_append]
      rw [ih i (Nat.le_of_succ_le h)]
      simp [filter_block_ne s (Nat.ne_of_lt h)]

theorem trace_filter_eq (s : Session) : ∀ n i : Nat, i < n →
    (((List.range n).map (host_dispatch_msgs s)).flatten).filter
        (fun m => m.fd = (i : Int)) = host_dispatch_msgs s i := by
  intro n
  induction n with
  | zero => intro i h; exact absurd h (Nat.not_lt_zero i)
  | succ n ih =>
      intro i h
      rw [List.range_succ, List.map_append, List.flatten_append, List.filter_append]
      rcases Nat.lt_succ_iff_lt_or_eq.mp h with h' | h'
      · rw [ih i h']
        simp [filter_block_ne s (Nat.ne_of_gt h')]
      · subst h'
        rw [trace_prefix_filter s i i (le_refl i)]
        simp [filter_block_eq]

theorem runReports_below (inst : Int) (hf en : String) (hc : Nat)
    (hil : List (Option HostInfo)) (sc : List Int) (tu : Bool) (A : Nat) :
    ∀ k, k < A →
      runReports ⟨⟨inst, hf, en, hc, hil, sc, A, 0, true⟩, tu⟩ k
        = ⟨⟨inst, hf, en, hc, hil, sc, A, k, true⟩, tu⟩ := by
  intro k
  induction k with
  | zero => intro _; rfl
  | succ k ih =>
      intro h
      have hk : k < A := Nat.lt_of_succ_lt h
      have hno : ¬(A ≤ k + 1) := Nat.not_le.mpr h
      show launcher_rxmsg_callback (runReports _ k) = _
      rw [ih hk]
      unfold launcher_rxmsg_callback
      dsimp only
      rw [if_neg hno]

theorem step_preserves_inv {st st' : SysState}
    (hinv : SessionInv st) (hs : Step st st') : SessionInv st' := by
  cases hs with
  | report hup =>
      have hv : st.session.valid = true := by
        by_contra hne
        have hvf : st.session.valid = false := by
          revert hne; cases st.session.valid <;> simp
        rw [hinv.2 hvf] at hup
        exact Bool.false_ne_true hup
      unfold launcher_rxmsg_callback
      by_cases hc : st.session.nr_active ≤ st.session.nr_ackd + 1
      · rw [if_pos hc]
        constructor
        · intro h2
          have h3 := cleanup_valid_false
            { st with session := { st.session with nr_ackd := st.session.nr_ackd + 1 } }
          rw [h3] at h2
          exact (Bool.false_ne_true h2).elim
        · intro _
          exact cleanup_transport_false hv
      · rw [if_neg hc]
        constructor
        · intro _
          exact Nat.le_of_lt (Nat.not_le.mp hc)
        · intro h2
          exact (Bool.false_ne_true (hv.symm.trans h2).symm).elim
  | dispatch f =>
      rw [session_start_fst]
      exact hinv
  | cleanup =>
      by_cases h : st.session.valid = false
      · rw [cleanup_of_invalid h]; exact hinv
      · have hv : st.session.valid = true := by
          revert h; cases st.session.valid <;> simp
        constructor
        · intro h2
          rw [cleanup_valid_false st] at h2
          exact (Bool.false_ne_true h2).elim
        · intro _
          exact cleanup_transport_false hv
  | interrupt =>
      show SessionInv (launcher_session_cleanup st)
      by_cases h : st.session.valid = false
      · rw [cleanup_of_invalid h]; exact hinv
      · have hv : st.session.valid = true := by
          revert h; cases st.session.valid <;> simp
        constructor
        · intro h2
          rw [cleanup_valid_false st] at h2
          exact (Bool.false_ne_true h2).elim
        · intro _
          exact cleanup_transport_false hv

theorem inv_postSetup (r : Nat → Bool) (c : Nat → Int) (s0 : Session) :
    SessionInv (postSetup r c s0) := by
  have h := setup_foldl_valid_ackd r c (List.range s0.host_count)
    { s0 with nr_ackd := 0, nr_active := 0, valid := true }
  constructor
  · intro _
    have h2 : (postSetup r c s0).session.nr_ackd = 0 := h.2
    rw [h2]
    exact Nat.zero_le _
  · intro h2
    have hv : (postSetup r c s0).session.valid = true := h.1
    rw [hv] at h2
    exact (Bool.false_ne_true h2.symm).elim

theorem inv_reachable {r : Nat → Bool} {c : Nat → Int} {st : SysState}
    (h : Reachable r c st) : SessionInv st := by
  obtain ⟨s0, hr⟩ := h
  induction hr with
  | refl => exact inv_postSetup r c s0
  | tail hab hbc ih => exact step_preserves_inv ih hbc

/-! Claim theorems. -/

/-- Claim C1: for every sequence of inbound status reports on a valid
session with at least one active connection, each report increments
nr_ackd, the session stays valid at every report before the count reaches
nr_active, the cleanup transition fires exactly at the report that makes
nr_ackd equal nr_active, and once fired the session never becomes valid
again under further reports. (A report can only be delivered over an
established connection, so a session with zero active connections
receives none; hence the hypothesis that nr_active is at least one.) -/
theorem c1_completion_exact (st : SysState) (A : Nat)
    (hv : st.session.valid = true) (h0 : st.session.nr_ackd = 0)
    (hA : st.session.nr_active = A) (h1 : 1 ≤ A) :
    (∀ k, k < A →
        (runReports st k).session.valid = true ∧
        (runReports st k).session.nr_ackd = k ∧
        (runReports st k).session.nr_active = A) ∧
    ((runReports st A).session.valid = false ∧
     (runReports st A).session.nr_ackd = A ∧
     (runReports st A).session.nr_active = A) ∧
    (∀ k, A ≤ k → (runReports st k).session.valid = false) := by
  obtain ⟨⟨inst, hf, en, hc, hil, sc, na, ak, v⟩, tu⟩ := st
  replace hv : v = true := hv
  replace h0 : ak = 0 := h0
  replace hA : na = A := hA
  subst hv
  subst h0
  subst hA
  have hat : ((runReports ⟨⟨inst, hf, en, hc, hil, sc, na, 0, true⟩, tu⟩ na).session.valid = false ∧
      (runReports ⟨⟨inst, hf, en, hc, hil, sc, na, 0, true⟩, tu⟩ na).session.nr_ackd = na ∧
      (runReports ⟨⟨inst, hf, en, hc, hil, sc, na, 0, true⟩, tu⟩ na).session.nr_active = na) := by
    cases na with
    | zero => exact absurd h1 (by decide)
    | succ B =>
        simp only [runReports]
        rw [runReports_below inst hf en hc hil sc tu (B + 1) B (Nat.lt_succ_self B)]
        unfold launcher_rxmsg_callback
        dsimp only
        rw [if_pos (le_refl (B + 1))]
        unfold launcher_session_cleanup
        dsimp only
        rw [if_neg (by simp)]
        exact ⟨rfl, rfl, rfl⟩
  refine ⟨?_, hat, ?_⟩
  · intro k hk
    rw [runReports_below inst hf en hc hil sc tu na k hk]
    exact ⟨rfl, rfl, rfl⟩
  · intro k hk
    induction k, hk using Nat.le_induction with
    | base => exact hat.1
    | succ k hk ih =>
        show (launcher_rxmsg_callback (runReports _ k)).session.valid = false
        exact rxmsg_valid_false ih

/-- Witness for C1: a valid session with two active connections stays
valid after the first report and is cleaned up exactly at the second. -/
theorem c1_completion_witness :
    ((runReports stWait 1).session.valid = true ∧
     (runReports stWait 1).session.nr_ackd = 1) ∧
    ((runReports stWait 2).session.valid = false ∧
     (runReports stWait 2).session.nr_ackd = 2) := by
  have h := c1_completion_exact stWait 2 rfl rfl rfl (by decide)
  exact ⟨⟨(h.1 1 (by decide)).1, (h.1 1 (by decide)).2.1⟩, h.2.1.1, h.2.1.2.1⟩

/-- Claim C2 (failing input): the start control send to host 0 fails, yet
launcher_session_start leaves the session untouched: nr_active stays 2,
so session completion still depends on an acknowledgment from the failed
host. The claimed decrement of active_connections does not exist in the
source, whose failure branch only prints a log line. -/
theorem c2_start_failure_not_excluded :
    sendFail0 0 = -1 ∧
    (launcher_session_start sendFail0 sTwoActive).1 = sTwoActive ∧
    (launcher_session_start sendFail0 sTwoActive).1.nr_active = 2 := by
  refine ⟨rfl, session_start_fst sendFail0 sTwoActive, ?_⟩
  rw [session_start_fst]
  rfl

/-- Claim C3: cleanup is idempotent in every combination of the
normal-completion path (launcher_session_cleanup) and the interrupt path
(launcher_signal_handler): the second call is a no-op; after a cleanup the
validity flag is cleared and neither another cleanup, an interrupt, nor a
late status report brings it back to valid. -/
theorem c3_cleanup_idempotent (st : SysState) :
    launcher_session_cleanup (launcher_session_cleanup st)
        = launcher_session_cleanup st ∧
    launcher_signal_handler (launcher_session_cleanup st)
        = launcher_session_cleanup st ∧
    launcher_session_cleanup (launcher_signal_handler st)
        = launcher_signal_handler st ∧
    launcher_signal_handler (launcher_signal_handler st)
        = launcher_signal_handler st ∧
    (launcher_session_cleanup st).session.valid = false ∧
    (launcher_signal_handler (launcher_session_cleanup st)).session.valid = false ∧
    (launcher_rxmsg_callback (launcher_session_cleanup st)).session.valid = false :=
  ⟨cleanup_idem st, cleanup_idem st, cleanup_idem st, cleanup_idem st,
   cleanup_valid_false st,
   cleanup_valid_false (launcher_session_cleanup st),
   rxmsg_valid_false (cleanup_valid_false st)⟩

/-- Claim C4: in every wait-phase state reachable from a setup state by
dispatch, status-report and cleanup (or interrupt) steps, the invariant
nr_ackd at most nr_active holds while the session is valid; and once the
session is cleaned up no step changes either counter (the transport is
shut down, so no report can be delivered, and the remaining operations do
not write the counters). -/
theorem c4_wait_invariant (resolve : Nat → Bool) (connect : Nat → Int)
    (st : SysState) (h : Reachable resolve connect st) :
    (st.session.valid = true → st.session.nr_ackd ≤ st.session.nr_active) ∧
    (st.session.valid = false → ∀ st', Step st st' →
        st'.session.nr_ackd = st.session.nr_ackd ∧
        st'.session.nr_active = st.session.nr_active ∧
        st'.session.valid = false) := by
  have hinv := inv_reachable h
  refine ⟨hinv.1, ?_⟩
  intro hv st' hs
  cases hs with
  | report hup =>
      rw [hinv.2 hv] at hup
      exact (Bool.false_ne_true hup).elim
  | dispatch f =>
      rw [session_start_fst]
      exact ⟨rfl, rfl, hv⟩
  | cleanup =>
      rw [cleanup_of_invalid hv]
      exact ⟨rfl, rfl, hv⟩
  | interrupt =>
      have hcl : launcher_signal_handler st = st := cleanup_of_invalid hv
      rw [hcl]
      exact ⟨rfl, rfl, hv⟩

/-- Witness for C4: the state right after a concrete two-host setup is
reachable and satisfies the counter invariant. -/
theorem c4_wait_invariant_witness :
    (postSetup rAll cAll sPre).session.nr_ackd
      ≤ (postSetup rAll cAll sPre).session.nr_active :=
  (c4_wait_invariant rAll cAll (postSetup rAll cAll sPre)
      ⟨sPre, Relation.ReflTransGen.refl⟩).1 (by decide)

/-- Claim C5 (failing input): for the CONTROL_COMMAND message carrying
the payload start, the header length field is sizeof of a char pointer
(8 on the LP64 target), while the serialized command payload is 5 bytes
long; the length is computed from an unrelated local variable, exactly
what the claim rules out. -/
theorem c5_ctrl_len_mismatch :
    (launcher_send_ctrlmsg 0 "start").header.len = sizeof_charp ∧
    serializedLen (launcher_send_ctrlmsg 0 "start").payload = 5 ∧
    ¬((launcher_send_ctrlmsg 0 "start").header.len
        = serializedLen (launcher_send_ctrlmsg 0 "start").payload) := by
  decide

/-- Counterexample to Claim C6: in a two-host session in which host 1 has
no valid connection (its recorded handle is -1, host 0 holds handle 5),
the dispatch loop still issues three messages whose destination argument
is 1, and the messages for host 0 carry destination 0 rather than the
recorded handle 5: messages are neither restricted to hosts with valid
connections nor addressed to the recorded connection handles. -/
theorem c6_dispatch_counterexample :
    sDispatch.skt_conns = [5, -1] ∧
    (launcher_session_start_trace sDispatch).map SentMsg.fd = [0, 0, 0, 1, 1, 1] ∧
    ((launcher_session_start_trace sDispatch).filter
        (fun m => m.fd = (1 : Int))).length = 3 := by
  decide

/-- Claim C6 as amended: during dispatch the controller sends, for every
host index below host_count (whether or not that host has a valid
connection), exactly three messages in the order INSTANCE_COUNT,
EXECUTABLE_NAME, CONTROL_COMMAND start, passing the host index itself
(not the recorded connection handle) as the destination argument. -/
theorem c6_dispatch_amended (s : Session) (i : Nat) (hi : i < s.host_count) :
    (launcher_session_start_trace s).filter (fun m => m.fd = (i : Int))
      = host_dispatch_msgs s i ∧
    host_dispatch_msgs s i
      = [ { fd := (i : Int),
            header := { type := MsgType.PROC_INSTANCES, len := sizeof_int },
            payload := Payload.intBytes s.instances },
          { fd := (i : Int),
            header := { type := MsgType.EXEC_FILENAME, len := s.exe_name.length },
            payload := Payload.str s.exe_name },
          { fd := (i : Int),
            header := { type := MsgType.CTRL_MESSAGE, len := sizeof_charp },
            payload := Payload.str "start" } ] :=
  ⟨trace_filter_eq s s.host_count i hi, rfl⟩

/-- Witness for the amended C6: host 0 of the concrete dispatch session
receives exactly its three messages, in order. -/
theorem c6_dispatch_witness :
    (launcher_session_start_trace sDispatch).filter (fun m => m.fd = (0 : Int))
      = host_dispatch_msgs sDispatch 0 :=
  (c6_dispatch_amended sDispatch 0 (by decide)).1

/-- Claim C7: for every host list of size N, after setup nr_active equals
the number of host indices whose name resolved and whose connect call
succeeded (did not return -1), and nr_active is at most N; hosts that fail
are skipped and the loop continues with the rest. -/
theorem c7_setup_active_count (resolve : Nat → Bool) (connect : Nat → Int)
    (s : Session) (N : Nat) (hN : s.host_count = N) (h1 : 1 ≤ N) :
    (launcher_session_setup resolve connect s).1.nr_active
      = ((List.range N).filter (fun i => resolve i = true ∧ connect i ≠ -1)).length ∧
    (launcher_session_setup resolve connect s).1.nr_active ≤ N := by
  have key : (launcher_session_setup resolve connect s).1.nr_active
      = ((List.range N).filter (fun i => resolve i = true ∧ connect i ≠ -1)).length := by
    show ((List.range s.host_count).foldl (setup_host_step resolve connect)
        { s with nr_ackd := 0, nr_active := 0, valid := true }).nr_active = _
    rw [setup_foldl_nr_active, hN]
    simp
  refine ⟨key, ?_⟩
  rw [key]
  calc ((List.range N).filter (fun i => resolve i = true ∧ connect i ≠ -1)).length
      ≤ (List.range N).length := List.length_filter_le _ _
    _ = N := List.length_range N

/-- Witness for C7: with two hosts, host 0 unreachable and host 1
connected, setup reports one active connection, at most two. -/
theorem c7_setup_witness :
    (launcher_session_setup rAll cFail0 sPre).1.nr_active = 1 ∧
    (launcher_session_setup rAll cFail0 sPre).1.nr_active ≤ 2 := by
  have h := c7_setup_active_count rAll cFail0 sPre 2 rfl (by decide)
  exact ⟨h.1.trans (by decide), h.2⟩

/-- Claim C8 (failing input): parse_cmdline accepts a request for 1000
instances (and for 0 instances), because the validation condition in the
source combines the two bound checks with a logical AND, which is
unsatisfiable: no instance-count bound is ever enforced, contradicting
the claim that only 0 < instances and instances at most MAX_INSTANCES is
accepted. -/
theorem c8_cmdline_validation_bug :
    ((parse_cmdline argvBig sZero).2 = 0 ∧
     (parse_cmdline argvBig sZero).1.instances = 1000 ∧
     ¬(0 < (parse_cmdline argvBig sZero).1.instances ∧
        (parse_cmdline argvBig sZero).1.instances ≤ MAX_INSTANCES)) ∧
    ((parse_cmdline argvZero sZero).2 = 0 ∧
     (parse_cmdline argvZero sZero).1.instances = 0 ∧
     ¬(0 < (parse_cmdline argvZero sZero).1.instances)) := by
  decide

/-- Claim C9 (failing input): a 100-character hostname is not rejected:
fgets silently truncates it to the 63-character buffer payload, the loop
stores the truncated head as one entry and the leftover tail as a second
bogus entry, and both additions report success; and with 100 hosts
already stored (the capacity bound named by the spec) a further add still
succeeds, since no capacity check exists in the source. -/
theorem c9_registry_no_reject :
    fgets_first_chunk MAX_HOSTNAME_LEN longHostname
        = { data := List.replicate 63 'a' } ∧
    (parse_hostfile_adds (fun _ => true) longChunks sZero).host_count = 2 ∧
    (parse_hostfile_adds (fun _ => true) longChunks sZero).host_info
        = [some { hostname := { data := List.replicate 63 'a' } },
           some { hostname := { data := List.replicate 37 'a' } }] ∧
    ¬(some { hostname := longHostname }
        ∈ (parse_hostfile_adds (fun _ => true) longChunks sZero).host_info) ∧
    (hostfile_add true sFull "extra").host_count = 101 := by
  decide

/-- Claim C10: launcher_session_setup returns 0 for every resolution and
connection oracle and every session, the resulting session is always
valid, and even when every connect fails the session proceeds with zero
active connections; hence the exit path of main taken when setup returns
non-zero is unreachable. -/
theorem c10_setup_always_succeeds (resolve : Nat → Bool) (connect : Nat → Int)
    (s : Session) :
    (launcher_session_setup resolve connect s).2 = 0 ∧
    (launcher_session_setup resolve connect s).1.valid = true ∧
    (launcher_session_setup resolve (fun _ => (-1 : Int)) s).1.nr_active = 0 := by
  refine ⟨rfl, ?_, ?_⟩
  · exact (setup_foldl_valid_ackd resolve connect (List.range s.host_count)
      { s with nr_ackd := 0, nr_active := 0, valid := true }).1
  · show ((List.range s.host_count).foldl (setup_host_step resolve (fun _ => (-1 : Int)))
        { s with nr_ackd := 0, nr_active := 0, valid := true }).nr_active = 0
    rw [setup_foldl_nr_active]
    simp

end JobLauncher
